import Mathlib

/-! imap-mailbox-exporter: the rate-limited, cached IMAP collector.

A shallow embedding of `imap-mailbox-exporter.go`.

Modelling conventions

* `time.Time` and `time.Duration` are integers counting nanoseconds; a `time.Time`
  counts from Go's zero `Time`, so the zero value of the field `lastQuery` is `0`.
  All readings of one run are taken on one clock.
* Go `int` is 64 bits wide.  The snapshot fields are only ever copied or assigned
  from a `uint32`, so no arithmetic on them can wrap.
* The IMAP client library, the clock and the command line are inputs: one record
  (`Server`, `Env`, `Flags`) fixes what each of them answers during a call.
* `log.Fatal` ends the process through `os.Exit(1)`, which skips deferred calls; a
  run-time panic unwinds the stack and runs them.  Both are outcomes of a call,
  next to the ordinary return.
* The mutex of `Collect` serialises scrapes; here scrapes are run one after another.
-/

namespace ImapMailboxExporter

/-! ## Data model -/

/-- Snapshot of the mailbox, `type imapState struct`. -/
structure imapState where
  msgCount : Int
  unseen : Int
  up : Int
deriving DecidableEq, Repr

/-- Collector, `type imapExporter struct`.  The fields `msgCount` and `unseen` are
the two gauges, represented by the value they currently hold; the descriptor `up`
is a constant and the mutex is not represented. -/
structure imapExporter where
  mailserver : String
  username : String
  password : String
  mailbox : String
  minQueryInterval : Int
  lastQuery : Int
  lastState : imapState
  msgCount : Int
  unseen : Int
deriving DecidableEq, Repr

/-- One sample written to the metrics channel: fully qualified name and value.  A
gauge puts itself on the channel; the sample carries the value the gauge holds at
that moment, which is the value just given to `Set`. -/
structure Metric where
  name : String
  value : Int
deriving DecidableEq, Repr

/-- How a call ends. -/
inductive Outcome (α : Type) where
  | returned (a : α)
  | exited (msg : String)
  | panicked
deriving DecidableEq, Repr

/-- Calls made on the IMAP client library. -/
inductive ClientOp where
  | Dial
  | StartTLS
  | State
  | Login
  | Select
  | Logout
deriving DecidableEq, Repr

/-- The library's `MailboxStatus`, reduced to the two `uint32` fields that are read. -/
structure MailboxStatus where
  Messages : Nat
  Unseen : Nat
deriving DecidableEq, Repr

/-- What the IMAP client library answers during one query.
`dialErr`: `imap.Dial` returned an error.  `starttls`: `client.Caps["STARTTLS"]`.
`startTLSErr`: `client.StartTLS` returned an error (the code discards it).
`stateLogin`: `client.State() == imap.Login`.  `loginErr`: the error of
`client.Login`, `none` for nil.  `selectErr`: `client.Select` returned an error
(the code discards it).  `mailboxStatus`: the pointer `client.Mailbox` after
`Select`, `none` for nil.  The library keeps `client.Mailbox` nil unless a mailbox
is selected; the record does not impose this, so every statement below holds for
any relation between `selectErr` and `mailboxStatus`. -/
structure Server where
  dialErr : Bool
  starttls : Bool
  startTLSErr : Bool
  stateLogin : Bool
  loginErr : Option String
  selectErr : Bool
  mailboxStatus : Option MailboxStatus
deriving DecidableEq, Repr

/-- Inputs of one `Collect` call: the clock reading used by `time.Since` in
`collect`, the reading returned by `time.Now` in `queryImapServer`, and the
behaviour of the server. -/
structure Env where
  since : Int
  now : Int
  server : Server
deriving DecidableEq, Repr

/-- Record of one execution of `queryImapServer`. -/
structure QueryRun where
  exp : imapExporter
  ops : List ClientOp
  out : Outcome imapState
deriving DecidableEq, Repr

/-- One query attempt as seen from outside: the time stored in `lastQuery`, the
library calls made and the outcome. -/
structure Attempt where
  time : Int
  ops : List ClientOp
  out : Outcome imapState
deriving DecidableEq, Repr

/-- Record of one execution of `collect` or `Collect`: collector afterwards, samples
written to the channel, query attempts made, outcome. -/
structure Run (α : Type) where
  exp : imapExporter
  sent : List Metric
  attempts : List Attempt
  out : Outcome α

/-! ## Library operations -/

/-- Largest `time.Duration`. -/
def maxDuration : Int := 9223372036854775807

/-- Smallest `time.Duration`. -/
def minDuration : Int := -9223372036854775808

/-- The duration `time.Since(t)` at clock reading `now`: `Time.Sub` saturates at the
ends of the `int64` range. -/
def timeSince (now t : Int) : Int :=
  if now - t > maxDuration then maxDuration
  else if now - t < minDuration then minDuration
  else now - t

/-- Conversion `float64(x)` of a 64-bit `int`: the value of the nearest binary64
number, ties to even.  That value is an integer, and it is `x` whenever
`|x| < 2^53`. -/
def float64 (x : Int) : Int :=
  let a := x.natAbs
  if a < 2 ^ 53 then x
  else
    let sh := ((List.range 11).filter (fun k => decide (2 ^ (53 + k) ≤ a))).length
    let q := a / 2 ^ sh
    let r := a % 2 ^ sh
    let half := 2 ^ (sh - 1)
    let q1 := if half < r ∨ (r = half ∧ q % 2 = 1) then q + 1 else q
    Int.sign x * ((q1 * 2 ^ sh : Nat) : Int)

/-- Conversion `int(x)` of a `uint32`. -/
def intOfUint32 (x : Nat) : Int := ((x % 4294967296 : Nat) : Int)

/-! ## The collector -/

/-- Constructor `newExporter`: the remaining fields hold their zero values. -/
def newExporter (mailserver username password mailbox : String)
    (minQueryInterval : Int) : imapExporter :=
  { mailserver := mailserver
    username := username
    password := password
    mailbox := mailbox
    minQueryInterval := minQueryInterval
    lastQuery := 0
    lastState := { msgCount := 0, unseen := 0, up := 0 }
    msgCount := 0
    unseen := 0 }

/-- Method `queryImapServer`, with `now` the result of `time.Now()`.  Reading
`client.Mailbox.Messages` through a nil `client.Mailbox` panics; the deferred
`Logout` runs on the ordinary return and on the panic, not on `log.Fatal`. -/
def queryImapServer (exp : imapExporter) (now : Int) (srv : Server) : QueryRun :=
  let state := exp.lastState
  let exp := { exp with lastQuery := now }
  if srv.dialErr then
    { exp := exp, ops := [.Dial], out := .returned { state with up := 0 } }
  else if !srv.starttls then
    { exp := exp, ops := [.Dial],
      out := .exited "IMAP server does not support encryption!" }
  else if !srv.stateLogin then
    { exp := exp, ops := [.Dial, .StartTLS, .State],
      out := .exited "IMAP server in wrong state for Login!" }
  else
    match srv.loginErr with
    | some err =>
      { exp := exp, ops := [.Dial, .StartTLS, .State, .Login], out := .exited err }
    | none =>
      match srv.mailboxStatus with
      | none =>
        { exp := exp, ops := [.Dial, .StartTLS, .State, .Login, .Select, .Logout],
          out := .panicked }
      | some mb =>
        { exp := exp, ops := [.Dial, .StartTLS, .State, .Login, .Select, .Logout],
          out := .returned { up := 1
                             msgCount := intOfUint32 mb.Messages
                             unseen := intOfUint32 mb.Unseen } }

/-- The three samples for a snapshot. -/
def metricsOf (state : imapState) : List Metric :=
  [ { name := "imap_total_messages_count", value := float64 state.msgCount },
    { name := "imap_unseen_message", value := float64 state.unseen },
    { name := "imap_up", value := float64 state.up } ]

/-- Tail of `collect`: set and send the two gauges, send the constant metric,
return nil. -/
def emit (exp : imapExporter) (state : imapState) (attempts : List Attempt) :
    Run (Option String) :=
  let exp := { exp with msgCount := float64 state.msgCount }
  let m1 : Metric := { name := "imap_total_messages_count", value := exp.msgCount }
  let exp := { exp with unseen := float64 state.unseen }
  let m2 : Metric := { name := "imap_unseen_message", value := exp.unseen }
  let m3 : Metric := { name := "imap_up", value := float64 state.up }
  { exp := exp, sent := [m1, m2, m3], attempts := attempts, out := .returned none }

/-- Method `collect`; the returned error is `none` for nil. -/
def collect (exp : imapExporter) (env : Env) : Run (Option String) :=
  let state := exp.lastState
  if timeSince env.since exp.lastQuery ≥ exp.minQueryInterval then
    let q := queryImapServer exp env.now env.server
    let log : List Attempt := [{ time := q.exp.lastQuery, ops := q.ops, out := q.out }]
    match q.out with
    | .returned state => emit { q.exp with lastState := state } state log
    | .exited msg => { exp := q.exp, sent := [], attempts := log, out := .exited msg }
    | .panicked => { exp := q.exp, sent := [], attempts := log, out := .panicked }
  else
    emit exp state []

/-- Method `Collect`. -/
def Collect (exp : imapExporter) (env : Env) : Run Unit :=
  let r := collect exp env
  match r.out with
  | .returned (some _) =>
    { exp := r.exp, sent := r.sent, attempts := r.attempts,
      out := .exited "Scraping failure!" }
  | .returned none =>
    { exp := r.exp, sent := r.sent, attempts := r.attempts, out := .returned () }
  | .exited msg =>
    { exp := r.exp, sent := r.sent, attempts := r.attempts, out := .exited msg }
  | .panicked =>
    { exp := r.exp, sent := r.sent, attempts := r.attempts, out := .panicked }

/-- A life of the process after start-up: what a series of scrapes did. -/
structure Session where
  attempts : List Attempt
  outputs : List (List Metric)
  final : Option imapExporter
deriving DecidableEq, Repr

/-- Successive `Collect` calls on one collector, one per element of the list, until
the list is exhausted or the process ends (`final = none`). -/
def scrapes : imapExporter → List Env → Session
  | exp, [] => { attempts := [], outputs := [], final := some exp }
  | exp, env :: rest =>
    let r := Collect exp env
    match r.out with
    | .returned _ =>
      let s := scrapes r.exp rest
      { attempts := r.attempts ++ s.attempts, outputs := r.sent :: s.outputs,
        final := s.final }
    | _ => { attempts := r.attempts, outputs := [], final := none }

/-- Clock readings of a series of scrapes, in the order they are taken. -/
def readings (envs : List Env) : List Int :=
  envs.flatMap (fun env => [env.since, env.now])

/-- The counts held after a log of query attempts, starting from `init`: those
returned by the most recent attempt that completed with `up = 1`. -/
def lastRead (init : Int × Int) : List Attempt → Int × Int
  | [] => init
  | a :: rest =>
    match a.out with
    | .returned s => if s.up = 1 then lastRead (s.msgCount, s.unseen) rest
                     else lastRead init rest
    | _ => lastRead init rest

/-- The server behaviour in which every step of the query works and the selected
folder reports the counts `m` and `u`. -/
def serverOk (m u : Nat) : Server :=
  { dialErr := false, starttls := true, startTLSErr := false, stateLogin := true,
    loginErr := none, selectErr := false,
    mailboxStatus := some { Messages := m, Unseen := u } }

/-- The server behaviour in which the connection cannot be opened. -/
def serverDown : Server :=
  { dialErr := true, starttls := false, startTLSErr := false, stateLogin := false,
    loginErr := none, selectErr := false, mailboxStatus := none }

/-- A clock reading of the present day, in nanoseconds after Go's zero `Time`. -/
def t0 : Int := 63900000000000000000

/-- A freshly built collector with a minimum interval of 120 seconds. -/
def exporter120 : imapExporter :=
  newExporter "mail.example.org:143" "user" "secret" "INBOX" (120 * 1000000000)

/-- Scenario A: scrapes at 0 s, 10 s and 125 s; the folder holds (5, 2), later (7, 3). -/
def scenarioA : List Env :=
  [ { since := t0, now := t0 + 1, server := serverOk 5 2 },
    { since := t0 + 10 * 1000000000, now := t0 + 10 * 1000000000 + 1,
      server := serverOk 6 2 },
    { since := t0 + 125 * 1000000000, now := t0 + 125 * 1000000000 + 1,
      server := serverOk 7 3 } ]

/-- Scenario B: connection refused at 0 s, the folder holds (1, 1) at 121 s. -/
def scenarioB : List Env :=
  [ { since := t0, now := t0 + 1, server := serverDown },
    { since := t0 + 121 * 1000000000, now := t0 + 121 * 1000000000 + 1,
      server := serverOk 1 1 } ]

/-- A server that accepts the connection but does not advertise `STARTTLS`. -/
def serverNoTLS : Server :=
  { dialErr := false, starttls := false, startTLSErr := false, stateLogin := true,
    loginErr := none, selectErr := false, mailboxStatus := none }

/-- A server that is not in the `Login` state after `StartTLS`. -/
def serverWrongState : Server :=
  { dialErr := false, starttls := true, startTLSErr := false, stateLogin := false,
    loginErr := none, selectErr := false, mailboxStatus := none }

/-- A server that rejects the user name and password. -/
def serverBadLogin : Server :=
  { dialErr := false, starttls := true, startTLSErr := false, stateLogin := true,
    loginErr := some "Invalid credentials", selectErr := false, mailboxStatus := none }

/-- A server on which every step up to the login works and the selection of the
folder fails, leaving no mailbox selected (`client.Mailbox` is nil). -/
def serverNoFolder : Server :=
  { dialErr := false, starttls := true, startTLSErr := false, stateLogin := true,
    loginErr := none, selectErr := true, mailboxStatus := none }

/-- As `serverNoFolder`, for a client library that would keep a mailbox status
after the failed selection. -/
def serverStaleFolder : Server :=
  { dialErr := false, starttls := true, startTLSErr := false, stateLogin := true,
    loginErr := none, selectErr := true,
    mailboxStatus := some { Messages := 3, Unseen := 1 } }

/-- The collector of Scenario A after its first scrape. -/
def exporterA1 : imapExporter :=
  (collect exporter120 { since := t0, now := t0 + 1, server := serverOk 5 2 }).exp

/-- Two scrapes 10 s and 20 s after the first one of Scenario A; the folder has
changed at the first, the server is down at the second. -/
def scenarioCached : List Env :=
  [ { since := t0 + 10 * 1000000000, now := t0 + 10 * 1000000000 + 1,
      server := serverOk 6 2 },
    { since := t0 + 20 * 1000000000, now := t0 + 20 * 1000000000 + 1,
      server := serverDown } ]

/-! ## Start-up -/

/-- Value of a decimal digit, `none` for any other character. -/
def digitVal (c : Char) : Option Nat :=
  if 48 ≤ c.toNat ∧ c.toNat ≤ 57 then some (c.toNat - 48) else none

/-- Value of a run of decimal digits read after the accumulator `acc`. -/
def parseDigits : List Char → Nat → Option Nat
  | [], acc => some acc
  | c :: cs, acc =>
    match digitVal c with
    | none => none
    | some d => parseDigits cs (acc * 10 + d)

/-- Library function `strconv.Atoi` for a 64-bit `int`, `none` for an error: an
optional sign, then one or more decimal digits, and the value must fit the type. -/
def Atoi (s : String) : Option Int :=
  match s.data with
  | [] => none
  | c :: cs =>
    let ds := if c = '-' ∨ c = '+' then cs else c :: cs
    match ds with
    | [] => none
    | _ :: _ =>
      match parseDigits ds 0 with
      | none => none
      | some n =>
        if c = '-' then
          if n ≤ 9223372036854775808 then some (-(n : Int)) else none
        else
          if n ≤ 9223372036854775807 then some (n : Int) else none

/-- Two's-complement wrap of an integer to the `int64` range. -/
def wrapInt64 (x : Int) : Int :=
  (x + 9223372036854775808) % 18446744073709551616 - 9223372036854775808

/-- The constant `time.Second`. -/
def Second : Int := 1000000000

/-- Values of the command-line flags after `flag.Parse()`. -/
structure Flags where
  imapServer : String
  imapUsername : String
  imapPassword : String
  imapMailbox : String
  imapInterval : String
  listenAddress : String
  metricsEndpoint : String
deriving DecidableEq, Repr

/-- What `main` has built when it starts serving. -/
structure Startup where
  exporter : imapExporter
  listenAddress : String
  metricsEndpoint : String
deriving DecidableEq, Repr

/-- Function `main` up to the construction of the collector. -/
def main (f : Flags) : Outcome Startup :=
  if f.imapServer = "" then .exited "Missing IMAP server configuration"
  else if f.imapUsername = "" then .exited "Missing IMAP username configuration"
  else if f.imapPassword = "" then .exited "Missing IMAP password configuration"
  else
    let imapMailbox := if f.imapMailbox = "" then "INBOX" else f.imapMailbox
    let imapInterval := if f.imapInterval = "" then "120" else f.imapInterval
    let listenAddress := if f.listenAddress = "" then "127.0.0.1:9117" else f.listenAddress
    let metricsEndpoint := if f.metricsEndpoint = "" then "/metrics" else f.metricsEndpoint
    match Atoi imapInterval with
    | none => .exited ("Invalid query interval: " ++ imapInterval)
    | some imapIntervali =>
      let imapIntervald := wrapInt64 (imapIntervali * Second)
      .returned
        { exporter := newExporter f.imapServer f.imapUsername f.imapPassword imapMailbox
            imapIntervald
          listenAddress := listenAddress
          metricsEndpoint := metricsEndpoint }

/-- Flags with the required settings and a negative interval. -/
def flagsNegative : Flags :=
  { imapServer := "mail.example.org:143", imapUsername := "user", imapPassword := "secret",
    imapMailbox := "", imapInterval := "-5", listenAddress := "", metricsEndpoint := "" }

/-- Flags with the required settings and every optional one left empty. -/
def flagsDefault : Flags :=
  { imapServer := "mail.example.org:143", imapUsername := "user", imapPassword := "secret",
    imapMailbox := "", imapInterval := "", listenAddress := "", metricsEndpoint := "" }

/-! ## Rate limiting -/

theorem collect_cached (exp : imapExporter) (env : Env)
    (h : timeSince env.since exp.lastQuery < exp.minQueryInterval) :
    collect exp env = emit exp exp.lastState [] := by
  unfold collect
  simp only [ge_iff_le, not_le.mpr h, if_false]

theorem scrapes_cached (lq mi : Int) (ls : imapState) (envs : List Env) :
    ∀ exp : imapExporter, exp.lastQuery = lq → exp.minQueryInterval = mi →
      exp.lastState = ls → (∀ env ∈ envs, timeSince env.since lq < mi) →
      (scrapes exp envs).attempts = [] ∧
      (scrapes exp envs).outputs = List.replicate envs.length (metricsOf ls) ∧
      ∃ fin, (scrapes exp envs).final = some fin ∧ fin.lastState = ls ∧
        fin.lastQuery = lq := by
  induction envs with
  | nil =>
    intro exp h1 _ h3 _
    exact ⟨rfl, rfl, exp, rfl, h3, h1⟩
  | cons env rest ih =>
    intro exp h1 h2 h3 h
    have hc : collect exp env = emit exp exp.lastState [] :=
      collect_cached exp env (by rw [h1, h2]; exact h env (List.mem_cons_self _ _))
    have hrest := ih (emit exp exp.lastState []).exp h1 h2 h3
      (fun e he => h e (List.mem_cons_of_mem _ he))
    obtain ⟨ha, ho, fin, hf, hfs, hfq⟩ := hrest
    simp only [scrapes, Collect, hc]
    refine ⟨?_, ?_, fin, ?_, hfs, hfq⟩
    · simpa [emit] using ha
    · simp only [emit, List.length_cons, List.replicate_succ] at ho ⊢
      rw [ho, ← h3]
      rfl
    · simpa [emit] using hf

/-- C1 (rate limiting).  Whenever the time elapsed since `lastQuery` is below
`minQueryInterval`, `collect` makes no query attempt, keeps `lastState` and
`lastQuery`, sends exactly the three samples of the cached snapshot and returns
nil; and a series of scrapes that all fall inside the interval makes no attempt
and outputs the same snapshot every time. -/
theorem collect_rate_limited (exp : imapExporter) (envs : List Env)
    (h : ∀ env ∈ envs, timeSince env.since exp.lastQuery < exp.minQueryInterval) :
    (∀ env ∈ envs,
      (collect exp env).attempts = [] ∧
      (collect exp env).exp.lastState = exp.lastState ∧
      (collect exp env).exp.lastQuery = exp.lastQuery ∧
      (collect exp env).sent = metricsOf exp.lastState ∧
      (collect exp env).out = .returned none) ∧
    (scrapes exp envs).attempts = [] ∧
    (scrapes exp envs).outputs = List.replicate envs.length (metricsOf exp.lastState) ∧
    ∃ fin, (scrapes exp envs).final = some fin ∧ fin.lastState = exp.lastState ∧
      fin.lastQuery = exp.lastQuery := by
  refine ⟨?_, scrapes_cached exp.lastQuery exp.minQueryInterval exp.lastState envs exp
    rfl rfl rfl h⟩
  intro env he
  rw [collect_cached exp env (h env he)]
  exact ⟨rfl, rfl, rfl, rfl, rfl⟩

/-- Witness for C1: the scrapes at 10 s and at 20 s, after the query of Scenario A
at 0 s, make no attempt and repeat (5, 2, up = 1) although the folder has changed. -/
theorem collect_rate_limited_witness :
    (∀ env ∈ scenarioCached,
      timeSince env.since exporterA1.lastQuery < exporterA1.minQueryInterval) ∧
    exporterA1.lastState = { msgCount := 5, unseen := 2, up := 1 } ∧
    (scrapes exporterA1 scenarioCached).outputs =
      List.replicate 2 (metricsOf { msgCount := 5, unseen := 2, up := 1 }) :=
  ⟨by decide, by decide, (collect_rate_limited exporterA1 scenarioCached (by decide)).2.2.1⟩

/-! ## Refresh -/

theorem float64_small (x : Int) (h : x.natAbs < 2 ^ 53) : float64 x = x := by
  unfold float64
  simp only [h, if_true]

theorem float64_uint32 (x : Nat) : float64 (intOfUint32 x) = intOfUint32 x := by
  apply float64_small
  unfold intOfUint32
  have : x % 4294967296 < 4294967296 := Nat.mod_lt _ (by norm_num)
  simp only [Int.natAbs_ofNat]
  omega

theorem intOfUint32_small (x : Nat) (h : x < 4294967296) : intOfUint32 x = (x : Int) := by
  unfold intOfUint32
  rw [Nat.mod_eq_of_lt h]

theorem query_exp (exp : imapExporter) (now : Int) (srv : Server) :
    (queryImapServer exp now srv).exp = { exp with lastQuery := now } := by
  unfold queryImapServer
  simp only
  split
  · rfl
  split
  · rfl
  split
  · rfl
  split
  · rfl
  split <;> rfl

theorem collect_attempted (exp : imapExporter) (env : Env)
    (h : timeSince env.since exp.lastQuery ≥ exp.minQueryInterval) :
    collect exp env =
      match (queryImapServer exp env.now env.server).out with
      | .returned state =>
        emit { exp with lastQuery := env.now, lastState := state } state
          [{ time := env.now, ops := (queryImapServer exp env.now env.server).ops,
             out := (queryImapServer exp env.now env.server).out }]
      | .exited msg =>
        { exp := { exp with lastQuery := env.now }, sent := [],
          attempts := [{ time := env.now,
                         ops := (queryImapServer exp env.now env.server).ops,
                         out := (queryImapServer exp env.now env.server).out }],
          out := .exited msg }
      | .panicked =>
        { exp := { exp with lastQuery := env.now }, sent := [],
          attempts := [{ time := env.now,
                         ops := (queryImapServer exp env.now env.server).ops,
                         out := (queryImapServer exp env.now env.server).out }],
          out := .panicked } := by
  unfold collect
  simp only [h, if_true, query_exp]

theorem query_success (exp : imapExporter) (now : Int) (srv : Server) (mb : MailboxStatus)
    (h1 : srv.dialErr = false) (h2 : srv.starttls = true) (h3 : srv.stateLogin = true)
    (h4 : srv.loginErr = none) (h5 : srv.mailboxStatus = some mb) :
    (queryImapServer exp now srv).out =
      .returned { msgCount := intOfUint32 mb.Messages, unseen := intOfUint32 mb.Unseen,
                  up := 1 } := by
  unfold queryImapServer
  simp [h1, h2, h3, h4, h5]

theorem query_dial_failure (exp : imapExporter) (now : Int) (srv : Server)
    (h1 : srv.dialErr = true) :
    (queryImapServer exp now srv).out = .returned { exp.lastState with up := 0 } ∧
    (queryImapServer exp now srv).ops = [.Dial] := by
  unfold queryImapServer
  simp [h1]

theorem collect_stores (exp : imapExporter) (env : Env)
    (h : timeSince env.since exp.lastQuery ≥ exp.minQueryInterval) (s : imapState)
    (hs : (queryImapServer exp env.now env.server).out = .returned s) :
    (collect exp env).out = .returned none ∧
    (collect exp env).exp.lastState = s ∧
    (collect exp env).sent = metricsOf s ∧
    (collect exp env).exp.lastQuery = env.now := by
  rw [collect_attempted exp env h, hs]
  exact ⟨rfl, rfl, rfl, rfl⟩

/-- C2 (refresh).  When the time elapsed since `lastQuery` has reached
`minQueryInterval`, `collect` runs `queryImapServer` exactly once, at the reading
of `time.Now`; whatever snapshot the query returns becomes `lastState` and is the
snapshot sent, with a nil error; a query whose steps all work and whose folder
reports `m` messages and first unseen `u` returns, and the stored and sent
snapshot is then `(m, u, up = 1)`. -/
theorem collect_refresh (exp : imapExporter) (env : Env)
    (h : timeSince env.since exp.lastQuery ≥ exp.minQueryInterval) :
    (collect exp env).attempts =
      [{ time := env.now, ops := (queryImapServer exp env.now env.server).ops,
         out := (queryImapServer exp env.now env.server).out }] ∧
    (∀ s, (queryImapServer exp env.now env.server).out = .returned s →
      (collect exp env).out = .returned none ∧
      (collect exp env).exp.lastState = s ∧
      (collect exp env).sent = metricsOf s) ∧
    (∀ m u : Nat, m < 4294967296 → u < 4294967296 →
      env.server.dialErr = false → env.server.starttls = true →
      env.server.stateLogin = true → env.server.loginErr = none →
      env.server.mailboxStatus = some { Messages := m, Unseen := u } →
      (queryImapServer exp env.now env.server).out =
        .returned { msgCount := m, unseen := u, up := 1 } ∧
      (collect exp env).out = .returned none ∧
      (collect exp env).exp.lastState = { msgCount := m, unseen := u, up := 1 } ∧
      (collect exp env).sent =
        [ { name := "imap_total_messages_count", value := m },
          { name := "imap_unseen_message", value := u },
          { name := "imap_up", value := 1 } ]) := by
  have hc := collect_attempted exp env h
  refine ⟨?_, ?_, ?_⟩
  · rw [hc]
    cases hq : (queryImapServer exp env.now env.server).out <;> simp [emit]
  · intro s hs
    have hst := collect_stores exp env h s hs
    exact ⟨hst.1, hst.2.1, hst.2.2.1⟩
  · intro m u hm hu h1 h2 h3 h4 h5
    have hq := query_success exp env.now env.server _ h1 h2 h3 h4 h5
    simp only [intOfUint32_small m hm, intOfUint32_small u hu] at hq
    have hfm : float64 (m : Int) = m := by
      rw [← intOfUint32_small m hm]; exact float64_uint32 m
    have hfu : float64 (u : Int) = u := by
      rw [← intOfUint32_small u hu]; exact float64_uint32 u
    have hf1 : float64 1 = 1 := by decide
    refine ⟨hq, ?_, ?_, ?_⟩
    · rw [hc, hq]; rfl
    · rw [hc, hq]; rfl
    · rw [hc, hq]
      simp only [emit, hfm, hfu, hf1]

/-- Witness for C2: Scenario A.  The first scrape of a fresh collector queries
and yields (5, 2, up = 1); the scrape at 10 s repeats it without a query; the
scrape at 125 s queries again and yields (7, 3, up = 1). -/
theorem collect_refresh_witness :
    timeSince t0 exporter120.lastQuery ≥ exporter120.minQueryInterval ∧
    (collect exporter120 { since := t0, now := t0 + 1, server := serverOk 5 2 }).exp.lastState
      = { msgCount := 5, unseen := 2, up := 1 } ∧
    (scrapes exporter120 scenarioA).outputs =
      [ metricsOf { msgCount := 5, unseen := 2, up := 1 },
        metricsOf { msgCount := 5, unseen := 2, up := 1 },
        metricsOf { msgCount := 7, unseen := 3, up := 1 } ] ∧
    (scrapes exporter120 scenarioA).attempts.map (fun a => a.time) =
      [t0 + 1, t0 + 125 * 1000000000 + 1] :=
  ⟨by decide,
   ((collect_refresh exporter120 { since := t0, now := t0 + 1, server := serverOk 5 2 }
      (by decide)).2.2 5 2 (by decide) (by decide) rfl rfl rfl rfl rfl).2.2.1,
   by decide, by decide⟩

/-! ## Failure isolation -/

theorem emit_out (exp : imapExporter) (state : imapState) (log : List Attempt) :
    (emit exp state log).out = .returned none := rfl

theorem collect_no_error (exp : imapExporter) (env : Env) (err : String) :
    (collect exp env).out ≠ .returned (some err) := by
  unfold collect
  simp only
  split
  · split <;> simp [emit_out]
  · simp [emit_out]

theorem Collect_exp (exp : imapExporter) (env : Env) :
    (Collect exp env).exp = (collect exp env).exp := by
  unfold Collect
  simp only
  split <;> rfl

theorem Collect_sent (exp : imapExporter) (env : Env) :
    (Collect exp env).sent = (collect exp env).sent := by
  unfold Collect
  simp only
  split <;> rfl

theorem Collect_attempts (exp : imapExporter) (env : Env) :
    (Collect exp env).attempts = (collect exp env).attempts := by
  unfold Collect
  simp only
  split <;> rfl

theorem Collect_returned (exp : imapExporter) (env : Env) (u : Unit) :
    (Collect exp env).out = .returned u ↔ (collect exp env).out = .returned none := by
  unfold Collect
  simp only
  split
  · rename_i e he
    exact absurd he (collect_no_error exp env e)
  · rename_i he
    simp [he]
  · rename_i msg he
    simp [he]
  · rename_i he
    simp [he]

theorem Collect_exited (exp : imapExporter) (env : Env) (msg : String) :
    (Collect exp env).out = .exited msg ↔ (collect exp env).out = .exited msg := by
  unfold Collect
  simp only
  split
  · rename_i e he
    exact absurd he (collect_no_error exp env e)
  · rename_i he
    simp [he]
  · rename_i m he
    simp [he]
  · rename_i he
    simp [he]

/-- C3 (failure isolation).  `collect` never returns a non-nil error, so an exit of
`Collect` is always an exit raised inside `collect` and never its own
"Scraping failure!" branch; and when the query is attempted and `imap.Dial` fails,
`collect` and `Collect` return normally, the stored snapshot has `up = 0`, and the
samples sent are those of the stored snapshot, the reachability sample being 0. -/
theorem collect_failure_isolation (exp : imapExporter) (env : Env) :
    (∀ err, (collect exp env).out ≠ .returned (some err)) ∧
    (∀ msg, (Collect exp env).out = .exited msg → (collect exp env).out = .exited msg) ∧
    (timeSince env.since exp.lastQuery ≥ exp.minQueryInterval →
      env.server.dialErr = true →
      (collect exp env).out = .returned none ∧
      (Collect exp env).out = .returned () ∧
      (collect exp env).exp.lastState.up = 0 ∧
      (collect exp env).sent = metricsOf (collect exp env).exp.lastState ∧
      (collect exp env).sent.getLast? = some { name := "imap_up", value := 0 }) := by
  refine ⟨collect_no_error exp env, fun msg hm => (Collect_exited exp env msg).mp hm, ?_⟩
  intro h hd
  have hq := (query_dial_failure exp env.now env.server hd).1
  have hr := collect_stores exp env h _ hq
  refine ⟨hr.1, (Collect_returned exp env ()).mpr hr.1, ?_, ?_, ?_⟩
  · rw [hr.2.1]
  · rw [hr.2.1, hr.2.2.1]
  · rw [hr.2.2.1]
    have hf0 : float64 0 = 0 := by decide
    simp [metricsOf, hf0]

/-- Witness for C3: the first scrape of a fresh collector against a server that
refuses the connection. -/
theorem collect_failure_isolation_witness :
    timeSince t0 exporter120.lastQuery ≥ exporter120.minQueryInterval ∧
    serverDown.dialErr = true ∧
    (Collect exporter120 { since := t0, now := t0 + 1, server := serverDown }).out
      = .returned () ∧
    (collect exporter120 { since := t0, now := t0 + 1, server := serverDown }).exp.lastState.up
      = 0 :=
  ⟨by decide, rfl,
   ((collect_failure_isolation exporter120
      { since := t0, now := t0 + 1, server := serverDown }).2.2 (by decide) rfl).2.1,
   ((collect_failure_isolation exporter120
      { since := t0, now := t0 + 1, server := serverDown }).2.2 (by decide) rfl).2.2.1⟩

/-! ## Counts survive a failed query -/

theorem query_returned_cases (exp : imapExporter) (now : Int) (srv : Server) (s : imapState)
    (h : (queryImapServer exp now srv).out = .returned s) :
    (srv.dialErr = true ∧ s = { exp.lastState with up := 0 }) ∨
    (srv.dialErr = false ∧ s.up = 1) := by
  unfold queryImapServer at h
  simp only at h
  split at h
  · rename_i hd
    left
    refine ⟨hd, ?_⟩
    injection h with h
    exact h.symm
  · rename_i hd
    right
    refine ⟨by simpa using hd, ?_⟩
    split at h
    · cases h
    split at h
    · cases h
    split at h
    · cases h
    split at h
    · cases h
    · injection h with h
      rw [← h]

theorem lastRead_append (l1 l2 : List Attempt) :
    ∀ init, lastRead init (l1 ++ l2) = lastRead (lastRead init l1) l2 := by
  induction l1 with
  | nil => intro init; rfl
  | cons a rest ih =>
    intro init
    simp only [List.cons_append, lastRead]
    split
    · split <;> exact ih _
    · exact ih _

theorem collect_counts (exp : imapExporter) (env : Env)
    (hr : (collect exp env).out = .returned none) :
    ((collect exp env).exp.lastState.msgCount, (collect exp env).exp.lastState.unseen) =
      lastRead (exp.lastState.msgCount, exp.lastState.unseen) (collect exp env).attempts := by
  by_cases h : timeSince env.since exp.lastQuery ≥ exp.minQueryInterval
  · rw [collect_attempted exp env h] at hr ⊢
    cases hq : (queryImapServer exp env.now env.server).out with
    | returned s =>
      simp only [emit, lastRead]
      rcases query_returned_cases exp env.now env.server s hq with ⟨_, hs⟩ | ⟨_, hs⟩
      · have hup : s.up ≠ 1 := by rw [hs]; simp
        simp only [hup, if_false]
        rw [hs]
      · simp only [hs, if_true]
    | exited msg => rw [hq] at hr; cases hr
    | panicked => rw [hq] at hr; cases hr
  · rw [collect_cached exp env (not_le.mp h)]
    rfl

theorem scrapes_counts (envs : List Env) :
    ∀ exp fin, (scrapes exp envs).final = some fin →
      (fin.lastState.msgCount, fin.lastState.unseen) =
        lastRead (exp.lastState.msgCount, exp.lastState.unseen) (scrapes exp envs).attempts := by
  induction envs with
  | nil =>
    intro exp fin h
    simp only [scrapes, Option.some.injEq] at h
    rw [← h]
    rfl
  | cons env rest ih =>
    intro exp fin h
    simp only [scrapes] at h ⊢
    cases hC : (Collect exp env).out with
    | returned u =>
      rw [hC] at h
      simp only at h ⊢
      have hc := (Collect_returned exp env u).mp hC
      rw [lastRead_append, Collect_attempts, ← collect_counts exp env hc, ← Collect_exp]
      exact ih _ fin h
    | exited msg => rw [hC] at h; cases h
    | panicked => rw [hC] at h; cases h

/-- C4 (counts survive failure).  A query whose `imap.Dial` fails returns the prior
snapshot with only `up` changed, to 0; more generally every snapshot a query
returns with `up` other than 1 carries the prior `msgCount` and `unseen` and has
`up = 0`; `collect` stores and sends exactly that snapshot; and after any series
of scrapes the stored counts are those returned by the most recent query that
completed with `up = 1`, or the initial ones (0 for a fresh collector) if there
was none. -/
theorem counts_survive_failure (exp : imapExporter) :
    (∀ now srv, srv.dialErr = true →
      (queryImapServer exp now srv).out = .returned { exp.lastState with up := 0 }) ∧
    (∀ now srv s, (queryImapServer exp now srv).out = .returned s → s.up ≠ 1 →
      s.msgCount = exp.lastState.msgCount ∧ s.unseen = exp.lastState.unseen ∧ s.up = 0) ∧
    (∀ env, timeSince env.since exp.lastQuery ≥ exp.minQueryInterval →
      env.server.dialErr = true →
      (collect exp env).exp.lastState = { exp.lastState with up := 0 } ∧
      (collect exp env).sent = metricsOf { exp.lastState with up := 0 }) ∧
    (∀ envs fin, (scrapes exp envs).final = some fin →
      (fin.lastState.msgCount, fin.lastState.unseen) =
        lastRead (exp.lastState.msgCount, exp.lastState.unseen) (scrapes exp envs).attempts) := by
  refine ⟨fun now srv hd => (query_dial_failure exp now srv hd).1, ?_, ?_,
    fun envs fin h => scrapes_counts envs exp fin h⟩
  · intro now srv s hs hup
    rcases query_returned_cases exp now srv s hs with ⟨_, h⟩ | ⟨_, h⟩
    · rw [h]; exact ⟨rfl, rfl, rfl⟩
    · exact absurd h hup
  · intro env h hd
    have hst := collect_stores exp env h _ (query_dial_failure exp env.now env.server hd).1
    exact ⟨hst.2.1, hst.2.2.1⟩

/-- Witness for C4: Scenario B.  A fresh collector whose first query is refused
holds (0, 0, up = 0); the scrape at 121 s reads (1, 1) and holds (1, 1, up = 1). -/
theorem counts_survive_failure_witness :
    serverDown.dialErr = true ∧
    (queryImapServer exporter120 (t0 + 1) serverDown).out =
      .returned { msgCount := 0, unseen := 0, up := 0 } ∧
    (scrapes exporter120 scenarioB).outputs =
      [ metricsOf { msgCount := 0, unseen := 0, up := 0 },
        metricsOf { msgCount := 1, unseen := 1, up := 1 } ] ∧
    (scrapes exporter120 (scenarioB.take 1)).final.map (fun e => e.lastState) =
      some { msgCount := 0, unseen := 0, up := 0 } ∧
    (scrapes exporter120 scenarioB).final.map (fun e => e.lastState) =
      some { msgCount := 1, unseen := 1, up := 1 } :=
  ⟨rfl, (counts_survive_failure exporter120).1 (t0 + 1) serverDown rfl,
   by decide, by decide, by decide⟩

/-! ## At most one attempt per interval -/

theorem timeSince_le (now t : Int) (h : t ≤ now) : timeSince now t ≤ now - t := by
  unfold timeSince maxDuration minDuration
  split
  · omega
  split
  · omega
  · exact le_refl _

theorem collect_attempt_time (exp : imapExporter) (env : Env)
    (h : timeSince env.since exp.lastQuery ≥ exp.minQueryInterval) :
    (collect exp env).exp.lastQuery = env.now ∧
    (collect exp env).exp.minQueryInterval = exp.minQueryInterval ∧
    (collect exp env).attempts.map (fun a => a.time) = [env.now] := by
  rw [collect_attempted exp env h]
  cases (queryImapServer exp env.now env.server).out <;> exact ⟨rfl, rfl, rfl⟩

theorem collect_no_attempt (exp : imapExporter) (env : Env)
    (h : timeSince env.since exp.lastQuery < exp.minQueryInterval) :
    (collect exp env).exp.lastQuery = exp.lastQuery ∧
    (collect exp env).exp.minQueryInterval = exp.minQueryInterval ∧
    (collect exp env).attempts = [] := by
  rw [collect_cached exp env h]
  exact ⟨rfl, rfl, rfl⟩

theorem chain_le_head (a b : Int) (l : List Int) (hab : a ≤ b)
    (h : List.Chain (fun x y => x ≤ y) b l) : List.Chain (fun x y => x ≤ y) a l := by
  cases h with
  | nil => exact List.Chain.nil
  | cons hbc hrest => exact List.Chain.cons (le_trans hab hbc) hrest

theorem scrapes_spaced (mi : Int) (envs : List Env) :
    ∀ exp : imapExporter, exp.minQueryInterval = mi →
      List.Chain (fun a b => a ≤ b) exp.lastQuery (readings envs) →
      List.Chain (fun a b => a + mi ≤ b) exp.lastQuery
        ((scrapes exp envs).attempts.map (fun a => a.time)) ∧
      List.Sublist ((scrapes exp envs).attempts.map (fun a => a.time))
        (envs.map (fun env => env.now)) := by
  induction envs with
  | nil =>
    intro exp _ _
    exact ⟨List.Chain.nil, List.Sublist.slnil⟩
  | cons env rest ih =>
    intro exp hmi hclock
    simp only [readings, List.flatMap_cons, List.cons_append, List.nil_append,
      List.chain_cons] at hclock
    obtain ⟨h1, h2, h3⟩ := hclock
    by_cases h : timeSince env.since exp.lastQuery ≥ exp.minQueryInterval
    · obtain ⟨hq, hm, ha⟩ := collect_attempt_time exp env h
      have hstep : exp.lastQuery + mi ≤ env.now := by
        have := timeSince_le env.since exp.lastQuery h1
        rw [hmi] at h
        omega
      simp only [scrapes]
      cases hC : (Collect exp env).out with
      | returned u =>
        simp only [List.map_append, Collect_attempts, ha, List.singleton_append, List.map_cons]
        have hlq : (Collect exp env).exp.lastQuery = env.now := by rw [Collect_exp, hq]
        have hrest := ih (Collect exp env).exp (by rw [Collect_exp, hm, hmi])
          (by rw [hlq]; exact h3)
        rw [hlq] at hrest
        exact ⟨List.Chain.cons hstep hrest.1, hrest.2.cons₂ _⟩
      | exited msg =>
        simp only [Collect_attempts, ha, List.map_cons]
        exact ⟨List.Chain.cons hstep List.Chain.nil,
          (List.singleton_sublist.mpr (List.mem_cons_self _ _))⟩
      | panicked =>
        simp only [Collect_attempts, ha, List.map_cons]
        exact ⟨List.Chain.cons hstep List.Chain.nil,
          (List.singleton_sublist.mpr (List.mem_cons_self _ _))⟩
    · obtain ⟨hq, hm, ha⟩ := collect_no_attempt exp env (not_le.mp h)
      have hret : (Collect exp env).out = .returned () := by
        rw [Collect_returned, collect_cached exp env (not_le.mp h)]
        rfl
      simp only [scrapes, hret, Collect_attempts, ha, List.nil_append, List.map_cons]
      have hlq : (Collect exp env).exp.lastQuery = exp.lastQuery := by rw [Collect_exp, hq]
      have hrest := ih (Collect exp env).exp (by rw [Collect_exp, hm, hmi])
        (by
          rw [hlq]
          exact chain_le_head _ _ _ (le_trans h1 h2) h3)
      rw [hlq] at hrest
      exact ⟨hrest.1, hrest.2.cons _⟩

/-- C6 (one attempt per interval window).  Whatever the outcome of the query, a
`collect` call that attempts it leaves `lastQuery` equal to the reading of
`time.Now` taken in that attempt; after a failed `imap.Dial` a further call
inside the interval makes no attempt; and for scrapes made at non-decreasing
clock readings that start no earlier than `lastQuery`, every recorded attempt
time is the `time.Now` reading of one of the calls, and each recorded time is at
least `minQueryInterval` after the previous one (and after the initial
`lastQuery`).  No sign condition on `minQueryInterval` is needed. -/
theorem attempts_spaced (exp : imapExporter) (envs : List Env)
    (hclock : List.Chain (fun a b => a ≤ b) exp.lastQuery (readings envs)) :
    (∀ env, timeSince env.since exp.lastQuery ≥ exp.minQueryInterval →
      (collect exp env).exp.lastQuery = env.now ∧
      (collect exp env).attempts.map (fun a => a.time) = [env.now]) ∧
    (∀ env next, timeSince env.since exp.lastQuery ≥ exp.minQueryInterval →
      env.server.dialErr = true →
      timeSince next.since env.now < exp.minQueryInterval →
      (collect exp env).out = .returned none ∧
      (collect (collect exp env).exp next).attempts = []) ∧
    List.Chain (fun a b => a + exp.minQueryInterval ≤ b) exp.lastQuery
      ((scrapes exp envs).attempts.map (fun a => a.time)) ∧
    List.Sublist ((scrapes exp envs).attempts.map (fun a => a.time))
      (envs.map (fun env => env.now)) := by
  refine ⟨?_, ?_, scrapes_spaced exp.minQueryInterval envs exp rfl hclock⟩
  · intro env h
    have ht := collect_attempt_time exp env h
    exact ⟨ht.1, ht.2.2⟩
  · intro env next h hd hn
    have ht := collect_attempt_time exp env h
    have hst := collect_stores exp env h _ (query_dial_failure exp env.now env.server hd).1
    refine ⟨hst.1, ?_⟩
    exact (collect_no_attempt (collect exp env).exp next (by rw [ht.1, ht.2.1]; exact hn)).2.2

/-- Witness for C6: in Scenario B the refused attempt at 0 s and the successful one
at 121 s are recorded 121 s apart, with a 120 s interval. -/
theorem attempts_spaced_witness :
    List.Chain (fun a b => a ≤ b) exporter120.lastQuery (readings scenarioB) ∧
    List.Chain (fun a b => a + exporter120.minQueryInterval ≤ b) exporter120.lastQuery
      ((scrapes exporter120 scenarioB).attempts.map (fun a => a.time)) ∧
    (scrapes exporter120 scenarioB).attempts.map (fun a => a.time) =
      [t0 + 1, t0 + 121 * 1000000000 + 1] :=
  ⟨by simp [readings, scenarioB, exporter120, newExporter, t0],
   (attempts_spaced exporter120 scenarioB
      (by simp [readings, scenarioB, exporter120, newExporter, t0])).2.2.1,
   by decide⟩

/-! ## The fatal tier -/

theorem query_fatal (exp : imapExporter) (now : Int) (srv : Server)
    (hd : srv.dialErr = false) (hf : srv.starttls = false ∨ srv.loginErr ≠ none) :
    ∃ msg, (queryImapServer exp now srv).out = .exited msg ∧
      (srv.starttls = false → msg = "IMAP server does not support encryption!") ∧
      (srv.starttls = true → srv.stateLogin = true → srv.loginErr = some msg) := by
  cases hs : srv.starttls with
  | false =>
    refine ⟨"IMAP server does not support encryption!", ?_, fun _ => rfl, ?_⟩
    · simp [queryImapServer, hd, hs]
    · intro h; cases h
  | true =>
    cases hl : srv.stateLogin with
    | false =>
      refine ⟨"IMAP server in wrong state for Login!", ?_, ?_, ?_⟩
      · simp [queryImapServer, hd, hs, hl]
      · intro h; cases h
      · intro _ h; cases h
    | true =>
      cases he : srv.loginErr with
      | none =>
        rcases hf with hf | hf
        · rw [hs] at hf; cases hf
        · exact absurd he hf
      | some err =>
        refine ⟨err, ?_, ?_, fun _ _ => rfl⟩
        · simp [queryImapServer, hd, hs, hl, he]
        · intro h; cases h

/-- C7 (fatal tier).  When `imap.Dial` succeeds and the server either does not
advertise `STARTTLS` or rejects the login, `queryImapServer` ends the process
through `log.Fatal` (with the encryption message in the first case and, once the
login is reached, with the login error in the second) and returns no snapshot; an
attempting `collect` and `Collect` end the same way, nothing is sent, `lastState`
is not replaced, and no later scrape runs. -/
theorem fatal_not_folded (exp : imapExporter) (env : Env)
    (hd : env.server.dialErr = false)
    (hf : env.server.starttls = false ∨ env.server.loginErr ≠ none) :
    ∃ msg, (queryImapServer exp env.now env.server).out = .exited msg ∧
      (env.server.starttls = false → msg = "IMAP server does not support encryption!") ∧
      (env.server.starttls = true → env.server.stateLogin = true →
        env.server.loginErr = some msg) ∧
      (∀ s, (queryImapServer exp env.now env.server).out ≠ .returned s) ∧
      (timeSince env.since exp.lastQuery ≥ exp.minQueryInterval →
        (collect exp env).out = .exited msg ∧
        (Collect exp env).out = .exited msg ∧
        (collect exp env).sent = [] ∧
        (collect exp env).exp.lastState = exp.lastState ∧
        ∀ rest, (scrapes exp (env :: rest)).final = none) := by
  obtain ⟨msg, hq, h1, h2⟩ := query_fatal exp env.now env.server hd hf
  refine ⟨msg, hq, h1, h2, ?_, ?_⟩
  · intro s hs
    rw [hq] at hs
    cases hs
  · intro h
    have hc : (collect exp env).out = .exited msg ∧ (collect exp env).sent = [] ∧
        (collect exp env).exp.lastState = exp.lastState := by
      rw [collect_attempted exp env h, hq]
      exact ⟨rfl, rfl, rfl⟩
    have hC := (Collect_exited exp env msg).mpr hc.1
    refine ⟨hc.1, hC, hc.2.1, hc.2.2, ?_⟩
    intro rest
    simp only [scrapes, hC]

/-- Witness for C7: the first scrape of a fresh collector against a server without
`STARTTLS`, and against one that rejects the login. -/
theorem fatal_not_folded_witness :
    serverNoTLS.dialErr = false ∧
    (serverNoTLS.starttls = false ∨ serverNoTLS.loginErr ≠ none) ∧
    (∃ msg, (queryImapServer exporter120 (t0 + 1) serverNoTLS).out = .exited msg) ∧
    (Collect exporter120 { since := t0, now := t0 + 1, server := serverBadLogin }).out =
      .exited "Invalid credentials" :=
  ⟨rfl, Or.inl rfl,
   (fatal_not_folded exporter120 { since := t0, now := t0 + 1, server := serverNoTLS }
      rfl (Or.inl rfl)).imp (fun _ h => h.1),
   by decide⟩

/-! ## Unchecked folder selection -/

/-- C5 (evaluation of the code where the claim fails).  After a successful dial,
negotiation and login, a failed folder selection is not turned into `up = 0`: with
no mailbox selected the query panics on the nil `client.Mailbox`, and if a status
were still present it would be returned with `up = 1`; in general no query whose
dial succeeded returns a snapshot with `up` other than 1. -/
theorem select_failure_not_downgraded :
    serverNoFolder.selectErr = true ∧
    (queryImapServer exporter120 (t0 + 1) serverNoFolder).out = .panicked ∧
    (Collect exporter120 { since := t0, now := t0 + 1, server := serverNoFolder }).out
      = .panicked ∧
    serverStaleFolder.selectErr = true ∧
    (queryImapServer exporter120 (t0 + 1) serverStaleFolder).out =
      .returned { msgCount := 3, unseen := 1, up := 1 } ∧
    (∀ (exp : imapExporter) (now : Int) (srv : Server) (s : imapState),
      srv.dialErr = false → (queryImapServer exp now srv).out = .returned s → s.up = 1) := by
  refine ⟨rfl, by decide, by decide, rfl, by decide, ?_⟩
  intro exp now srv s hd hs
  rcases query_returned_cases exp now srv s hs with ⟨h, _⟩ | ⟨_, h⟩
  · rw [hd] at h; cases h
  · exact h

/-! ## Release of the connection -/

/-- C9 (evaluation of the code where the claim fails).  On the three `log.Fatal`
paths after a successful dial the process exits and `Logout` is never called; it
is called, last, when the query completes or panics; in general, after a
successful dial, `Logout` is among the calls made exactly when the query does not
end in `log.Fatal`. -/
theorem logout_skipped_on_fatal :
    (queryImapServer exporter120 (t0 + 1) serverNoTLS).out =
      .exited "IMAP server does not support encryption!" ∧
    (queryImapServer exporter120 (t0 + 1) serverNoTLS).ops = [.Dial] ∧
    (queryImapServer exporter120 (t0 + 1) serverWrongState).out =
      .exited "IMAP server in wrong state for Login!" ∧
    (queryImapServer exporter120 (t0 + 1) serverWrongState).ops =
      [.Dial, .StartTLS, .State] ∧
    (queryImapServer exporter120 (t0 + 1) serverBadLogin).out =
      .exited "Invalid credentials" ∧
    (queryImapServer exporter120 (t0 + 1) serverBadLogin).ops =
      [.Dial, .StartTLS, .State, .Login] ∧
    (queryImapServer exporter120 (t0 + 1) (serverOk 5 2)).ops =
      [.Dial, .StartTLS, .State, .Login, .Select, .Logout] ∧
    (queryImapServer exporter120 (t0 + 1) serverNoFolder).ops =
      [.Dial, .StartTLS, .State, .Login, .Select, .Logout] ∧
    (∀ (exp : imapExporter) (now : Int) (srv : Server), srv.dialErr = false →
      (ClientOp.Logout ∈ (queryImapServer exp now srv).ops ↔
        ∀ msg, (queryImapServer exp now srv).out ≠ .exited msg)) := by
  refine ⟨by decide, by decide, by decide, by decide, by decide, by decide, by decide,
    by decide, ?_⟩
  intro exp now srv hd
  unfold queryImapServer
  simp only [hd]
  cases srv.starttls <;> cases srv.stateLogin <;> cases srv.loginErr <;>
    cases srv.mailboxStatus <;> simp

/-! ## Interval configuration -/

theorem wrapInt64_id (x : Int) (h1 : minDuration ≤ x) (h2 : x ≤ maxDuration) :
    wrapInt64 x = x := by
  unfold minDuration at h1
  unfold maxDuration at h2
  unfold wrapInt64
  omega

theorem Atoi_range (s : String) (n : Int) (h : Atoi s = some n) :
    minDuration ≤ n ∧ n ≤ maxDuration := by
  unfold Atoi at h
  unfold minDuration maxDuration
  split at h
  · cases h
  · simp only at h
    split at h
    · cases h
    · split at h
      · cases h
      · split at h
        · split at h
          · injection h with h
            omega
          · cases h
        · split at h
          · injection h with h
            omega
          · cases h

/-- C8, counterexample.  With the interval setting "-5" start-up proceeds, and the
collector is handed a negative `minQueryInterval` of minus five seconds. -/
theorem interval_negative_accepted :
    Atoi "-5" = some (-5) ∧
    main flagsNegative =
      .returned
        { exporter := newExporter "mail.example.org:143" "user" "secret" "INBOX"
            (-5000000000)
          listenAddress := "127.0.0.1:9117"
          metricsEndpoint := "/metrics" } ∧
    ¬ (0 ≤ (newExporter "mail.example.org:143" "user" "secret" "INBOX"
        (-5000000000)).minQueryInterval) := by
  refine ⟨by decide, by decide, by decide⟩

/-- C8, amended.  With the required settings present: an empty interval setting
gives a `minQueryInterval` of 120 seconds; a non-empty setting that `strconv.Atoi`
rejects makes start-up fatal with "Invalid query interval"; a non-empty setting
that `strconv.Atoi` accepts as the integer `n` (of either sign, within the `int`
range) lets start-up proceed with `minQueryInterval` the 64-bit product of `n` and
`time.Second`, which is `n` seconds whenever `n` seconds fit a `time.Duration`,
and is then non-negative exactly when `n` is. -/
theorem main_interval (f : Flags) (hs : f.imapServer ≠ "") (hu : f.imapUsername ≠ "")
    (hp : f.imapPassword ≠ "") :
    (f.imapInterval = "" →
      ∃ st, main f = .returned st ∧ st.exporter.minQueryInterval = 120 * Second) ∧
    (f.imapInterval ≠ "" → Atoi f.imapInterval = none →
      main f = .exited ("Invalid query interval: " ++ f.imapInterval)) ∧
    (∀ n, f.imapInterval ≠ "" → Atoi f.imapInterval = some n →
      minDuration ≤ n ∧ n ≤ maxDuration ∧
      ∃ st, main f = .returned st ∧
        st.exporter.minQueryInterval = wrapInt64 (n * Second) ∧
        (minDuration ≤ n * Second → n * Second ≤ maxDuration →
          st.exporter.minQueryInterval = n * Second ∧
          (0 ≤ st.exporter.minQueryInterval ↔ 0 ≤ n))) := by
  have hm : main f =
      match Atoi (if f.imapInterval = "" then "120" else f.imapInterval) with
      | none =>
        .exited ("Invalid query interval: " ++
          (if f.imapInterval = "" then "120" else f.imapInterval))
      | some i =>
        .returned
          { exporter := newExporter f.imapServer f.imapUsername f.imapPassword
              (if f.imapMailbox = "" then "INBOX" else f.imapMailbox)
              (wrapInt64 (i * Second))
            listenAddress :=
              if f.listenAddress = "" then "127.0.0.1:9117" else f.listenAddress
            metricsEndpoint :=
              if f.metricsEndpoint = "" then "/metrics" else f.metricsEndpoint } := by
    simp only [main, hs, hu, hp, if_false]
  refine ⟨?_, ?_, ?_⟩
  · intro he
    have h120 : Atoi "120" = some 120 := by decide
    rw [hm]
    simp only [he, if_true, h120]
    have hw : wrapInt64 (120 * Second) = 120 * Second := by decide
    exact ⟨_, rfl, hw⟩
  · intro he ha
    rw [hm]
    simp only [he, if_false, ha]
  · intro n he ha
    have hr := Atoi_range _ n ha
    rw [hm]
    simp only [he, if_false, ha]
    refine ⟨hr.1, hr.2, _, rfl, rfl, ?_⟩
    intro h1 h2
    simp only [newExporter]
    rw [wrapInt64_id _ h1 h2]
    refine ⟨rfl, ?_⟩
    unfold Second
    omega

/-- Witness for C8 (amended): the default flags give 120 seconds, and the setting
"-5" is accepted. -/
theorem main_interval_witness :
    flagsDefault.imapServer ≠ "" ∧ flagsDefault.imapUsername ≠ "" ∧
    flagsDefault.imapPassword ≠ "" ∧
    (∃ st, main flagsDefault = .returned st ∧
      st.exporter.minQueryInterval = 120 * Second) ∧
    main { flagsDefault with imapInterval := "two minutes" } =
      .exited "Invalid query interval: two minutes" :=
  ⟨by decide, by decide, by decide,
   (main_interval flagsDefault (by decide) (by decide) (by decide)).1 rfl,
   by decide⟩

end ImapMailboxExporter
